import Mathlib

/-!
Verification of the proc10xG `process_10xReads` driver against its design
specification.  The driver (`src/proc10xG/process_10xReads.py`) is embedded
shallowly below; collaborator modules that are not part of the repository
snapshot (`barcodes_10xG.py`, `misc.py`, `illumina_10X_reads.py`) are
modelled from the specification where a claim depends on them, and each such
definition says so in its doc comment.
-/

namespace Proc10xG

/-- Classification outcome of a gem barcode against the whitelist. -/
inductive Status
  | MATCH
  | MISMATCH1
  | AMBIGUOUS
  | UNKNOWN
deriving DecidableEq, Repr

/-- A barcode is a string of nucleotide characters, embedded as a list of
characters. -/
abbrev Barcode := List Char

/-- The four nucleotide bases used to generate substitution variants. -/
def bases : List Char := ['A', 'C', 'G', 'T']

/-- Modelled from the spec: `barcodes_10xG.py` is not under `src/`.  Spec
§4.1: for every entry and every position, every alternate base substitution
is a variant.  `variantsOf o` lists every single-substitution variant of the
whitelist entry `o`. -/
def variantsOf (o : Barcode) : List Barcode :=
  (List.range o.length).flatMap fun i =>
    (bases.filter fun c => c ≠ o.getD i 'N').map fun c => o.set i c

/-- Modelled from the spec: record the origin `o` for the variant `v` in the
mismatch index, taking the union when several origins share a variant. -/
def addOrigin (M : List (Barcode × List Barcode)) (v o : Barcode) :
    List (Barcode × List Barcode) :=
  if M.any fun p => p.1 == v then
    M.map fun p => if p.1 == v then (p.1, if p.2.any (· == o) then p.2 else p.2 ++ [o]) else p
  else M ++ [(v, [o])]

/-- Modelled from the spec: the MismatchIndex maps every single-substitution
variant of every whitelist entry to the set of canonical entries it could
have originated from (spec §3 and §4.1). -/
def buildMismatchIndex (S : List Barcode) : List (Barcode × List Barcode) :=
  S.foldl (fun M o => (variantsOf o).foldl (fun M v => addOrigin M v o) M) []

/-- Origin set that the mismatch index `M` records for the barcode `b`
(empty when `b` is not in the index). -/
def origins (M : List (Barcode × List Barcode)) (b : Barcode) : List Barcode :=
  ((M.find? fun p => p.1 == b).map Prod.snd).getD []

/-- Modelled from the spec: `WhitelistIndex.lookup` (spec §4.1), the
classification of a barcode against the whitelist `S`: exact member →
MATCH, unique single-substitution origin → MISMATCH1 with the corrected
barcode, several origins → AMBIGUOUS, otherwise UNKNOWN. -/
def lookup (S : List Barcode) (b : Barcode) : Status × Option Barcode :=
  if b ∈ S then (.MATCH, some b)
  else
    match origins (buildMismatchIndex S) b with
    | [] => (.UNKNOWN, none)
    | [o] => (.MISMATCH1, some o)
    | _ :: _ :: _ => (.AMBIGUOUS, none)

/-- Running per-status and per-barcode counters kept by the whitelist
database object (`whitelistDB.statusCounter` and `whitelistDB.gbcCounter`
in the driver). -/
structure DBState where
  statusCounter : Status → Nat
  gbcCounter : List (Barcode × Nat)

/-- Increment the count of one status. -/
def bump (f : Status → Nat) (s : Status) : Status → Nat :=
  fun t => if t = s then f t + 1 else f t

/-- Increment the frequency-table entry of the barcode `b`, creating it at
count 1 when absent. -/
def bumpFreq (g : List (Barcode × Nat)) (b : Barcode) : List (Barcode × Nat) :=
  if g.any fun p => p.1 == b then
    g.map fun p => if p.1 == b then (p.1, p.2 + 1) else p
  else g ++ [(b, 1)]

/-- Modelled from the spec: classifying one read pair (represented by its
extracted barcode) updates the status counter for every pair and the
barcode frequency table for MATCH/MISMATCH1 pairs, using the corrected
barcode (spec §4.2 and §4.5). -/
def classifyUpdate (S : List Barcode) (db : DBState) (b : Barcode) : DBState :=
  { statusCounter := bump db.statusCounter (lookup S b).1,
    gbcCounter :=
      match (lookup S b).2 with
      | some c => bumpFreq db.gbcCounter c
      | none => db.gbcCounter }

/-- Classify and count every pair of one batch, in order. -/
def processBatch (S : List Barcode) (db : DBState) (batch : List Barcode) : DBState :=
  batch.foldl (classifyUpdate S) db

/-- Modelled from the spec: `misc.median` (`misc.py` is not under `src/`):
sort ascending, even length → average of the two middle values, odd length
→ the middle value.  The spec leaves the empty case open; it is modelled as
the sentinel `none` so that the progress line itself never fails. -/
def median (l : List Nat) : Option Rat :=
  if l = [] then none
  else
    let s := List.insertionSort (· ≤ ·) l
    if s.length % 2 = 1 then some ((s.getD (s.length / 2) 0 : Nat) : Rat)
    else some ((((s.getD (s.length / 2 - 1) 0 : Nat) : Rat) +
                ((s.getD (s.length / 2) 0 : Nat) : Rat)) / 2)

/-- Observable events of one driver run, in emission order.  `openRouter`,
`openSource` and `buildWhitelist` are the three INIT constructions (source
lines 110, 113, 116); `pull n` is one `iterator.next_raw(whitelistDB, n)`
request; `writeBatch n` is `output.writeProcessedRead` on a batch of `n`
pairs; `progress` is the verbose per-batch/summary stderr line (its
reads-per-second field depends on wall-clock time and is not modelled);
`persistCounts` is `whitelistDB.print_gbcCounter(output_dir)`;
`closeRouter` is `output.close()`; `statusLine s c p` is one final
per-status summary line with count `c` and percentage `p`. -/
inductive Ev
  | openRouter (enabled : List Status)
  | openSource
  | buildWhitelist
  | pull (n : Nat)
  | writeBatch (n : Nat)
  | progress (reads : Nat) (nbarcodes : Nat) (medReads : Option Rat)
  | persistCounts
  | closeRouter
  | statusLine (s : Status) (count : Nat) (pct : Rat)
deriving DecidableEq, Repr

/-- How one run of `process_10xReads_EXE` ends.  `completed` models a normal
return (after which the caller exits 0); `interruptExit` models the
`except (KeyboardInterrupt, SystemExit)` arm, which calls `sys.exit` with a
dedicated interrupt message (exit status 1); `fatalExit` models the
`except Exception` arm, which prints the traceback and calls `sys.exit`
with the generic fatal message (exit status 1); `initError` models an
exception in the INIT constructions, which sit outside the try block, so
the exception propagates uncaught (exit status 1). -/
inductive Outcome
  | completed
  | interruptExit
  | fatalExit
  | initError
deriving DecidableEq, Repr

/-- Fault injection point of a run.  `ok` is a fault-free run;
`routerInitFail` / `sourceInitFail` / `whitelistInitFail` make the
corresponding INIT construction raise; `interruptAfter k` delivers a
KeyboardInterrupt at the boundary before the `k`-th batch pull (the
embedding's steps are whole batches, so interrupts are observed between
batches); `errorAfter k` raises a generic exception at the same point. -/
inductive Fault
  | ok
  | routerInitFail
  | sourceInitFail
  | whitelistInitFail
  | interruptAfter (k : Nat)
  | errorAfter (k : Nat)
deriving DecidableEq, Repr

/-- Advance a pending fault by one batch boundary. -/
def tick : Fault → Fault
  | .interruptAfter (k + 1) => .interruptAfter k
  | .errorAfter (k + 1) => .errorAfter k
  | f => f

/-- Result of a run: emitted events, cumulative pairs consumed
(`iterator.count()`), final counter state, and how the run ended. -/
structure RunResult where
  evs : List Ev
  consumed : Nat
  db : DBState
  outcome : Outcome

/-- Counters at the start of a run. -/
def initDB : DBState :=
  ⟨fun _ => 0, []⟩

/-- Enabled status list of the output router (source lines 106-108):
`["MATCH", "MISMATCH1"]`, extended with `["AMBIGUOUS", "UNKNOWN"]` when
`output_all` is set. -/
def output_list (output_all : Bool) : List Status :=
  if output_all then [.MATCH, .MISMATCH1, .AMBIGUOUS, .UNKNOWN]
  else [.MATCH, .MISMATCH1]

/-- The `while 1` batch loop of `process_10xReads_EXE` (source lines
118-129): pull a batch of at most `n` pairs, break when it is empty,
otherwise write it and, when verbose, emit a progress line; classification
counters are updated by the pull (the source classifies inside
`next_raw`).  Returns the emitted events, the cumulative count, the final
counters, and `some` outcome when a fault ended the loop early. -/
def runLoop (S : List Barcode) (n : Nat) (verbose : Bool) (fault : Fault)
    (pairs : List Barcode) (consumed : Nat) (db : DBState) :
    List Ev × Nat × DBState × Option Outcome :=
  if fault = .interruptAfter 0 then ([], consumed, db, some .interruptExit)
  else if fault = .errorAfter 0 then ([], consumed, db, some .fatalExit)
  else if h : (pairs.take n).length = 0 then ([Ev.pull n], consumed, db, none)
  else
    (Ev.pull n :: Ev.writeBatch (pairs.take n).length ::
        (if verbose then
          [Ev.progress (consumed + (pairs.take n).length)
            (processBatch S db (pairs.take n)).gbcCounter.length
            (median ((processBatch S db (pairs.take n)).gbcCounter.map Prod.snd))]
        else []) ++
      (runLoop S n verbose (tick fault) (pairs.drop n)
        (consumed + (pairs.take n).length) (processBatch S db (pairs.take n))).1,
     (runLoop S n verbose (tick fault) (pairs.drop n)
        (consumed + (pairs.take n).length) (processBatch S db (pairs.take n))).2)
termination_by pairs.length
decreasing_by
  all_goals
    simp only [List.length_drop]
    simp only [List.length_take] at h
    omega

/-- The FINALIZE phase (source lines 130-146): persist the frequency table,
close the router, and when verbose, emit the progress line and the four
per-status summary lines.  Each percentage is `float(count) / total * 100`;
with `total = 0` the division raises ZeroDivisionError, caught by the
generic `except Exception` arm, so the run ends fatally after the progress
line. -/
def finalizeRun (verbose : Bool) (consumed : Nat) (db : DBState) : List Ev × Outcome :=
  if verbose then
    if consumed = 0 then
      ([Ev.persistCounts, Ev.closeRouter,
        Ev.progress consumed db.gbcCounter.length (median (db.gbcCounter.map Prod.snd))],
       .fatalExit)
    else
      ([Ev.persistCounts, Ev.closeRouter,
        Ev.progress consumed db.gbcCounter.length (median (db.gbcCounter.map Prod.snd))] ++
        [Status.MATCH, Status.MISMATCH1, Status.AMBIGUOUS, Status.UNKNOWN].map fun s =>
          Ev.statusLine s (db.statusCounter s)
            ((db.statusCounter s : Rat) / (consumed : Rat) * 100),
       .completed)
  else ([Ev.persistCounts, Ev.closeRouter], .completed)

/-- Configuration reaching `process_10xReads_EXE`; the whitelist and the
read pairs are passed separately. -/
structure Config where
  output_dir : String
  interleaved : Bool
  nogzip : Bool
  output_all : Bool
  verbose : Bool

/-- Shallow embedding of `process_10xReads_EXE` (source lines 102-151).
INIT happens outside the try block, in source order: construct the output
router (line 110), open the read-pair source (line 113), build the
whitelist index (line 116); a fault in any of them aborts with an uncaught
exception.  Then the batch loop runs and, unless a fault ended it, FINALIZE
runs.  The input pairs are represented by their extracted barcodes. -/
def process_10xReads_EXE (cfg : Config) (S : List Barcode) (pairs : List Barcode)
    (fault : Fault) : RunResult :=
  if fault = .routerInitFail then ⟨[], 0, initDB, .initError⟩
  else if fault = .sourceInitFail then
    ⟨[.openRouter (output_list cfg.output_all)], 0, initDB, .initError⟩
  else if fault = .whitelistInitFail then
    ⟨[.openRouter (output_list cfg.output_all), .openSource], 0, initDB, .initError⟩
  else
    match (runLoop S 250000 cfg.verbose fault pairs 0 initDB).2.2.2 with
    | some o =>
      ⟨[.openRouter (output_list cfg.output_all), .openSource, .buildWhitelist] ++
         (runLoop S 250000 cfg.verbose fault pairs 0 initDB).1,
       (runLoop S 250000 cfg.verbose fault pairs 0 initDB).2.1,
       (runLoop S 250000 cfg.verbose fault pairs 0 initDB).2.2.1, o⟩
    | none =>
      ⟨[.openRouter (output_list cfg.output_all), .openSource, .buildWhitelist] ++
         (runLoop S 250000 cfg.verbose fault pairs 0 initDB).1 ++
         (finalizeRun cfg.verbose (runLoop S 250000 cfg.verbose fault pairs 0 initDB).2.1
           (runLoop S 250000 cfg.verbose fault pairs 0 initDB).2.2.1).1,
       (runLoop S 250000 cfg.verbose fault pairs 0 initDB).2.1,
       (runLoop S 250000 cfg.verbose fault pairs 0 initDB).2.2.1,
       (finalizeRun cfg.verbose (runLoop S 250000 cfg.verbose fault pairs 0 initDB).2.1
         (runLoop S 250000 cfg.verbose fault pairs 0 initDB).2.2.1).2⟩

/-- Outcome of the argument-validation wrapper `process_10xReads_ARGS`
(source lines 72-99) as a process exit status: a missing read-1 list, a
missing read-2 list, or an inaccessible whitelist file each call
`sys.exit(1)`; otherwise the run executes and a normal return reaches
`sys.exit(0)`, while every failing outcome exits through `sys.exit` with a
message (status 1). -/
structure ArgsState where
  read1_given : Bool
  read2_given : Bool
  whitelist_accessible : Bool

/-- Exit status of the whole process for one invocation. -/
def process_10xReads_ARGS (a : ArgsState) (cfg : Config) (S : List Barcode)
    (pairs : List Barcode) (fault : Fault) : Nat :=
  if a.read1_given = false then 1
  else if a.read2_given = false then 1
  else if a.whitelist_accessible = false then 1
  else
    match (process_10xReads_EXE cfg S pairs fault).outcome with
    | .completed => 0
    | _ => 1

/-- Split a list into successive chunks of at most `n` elements, mirroring
the successive `next_raw` batches of the loop. -/
def chunksOf (n : Nat) (l : List Barcode) : List (List Barcode) :=
  if h : (l.take n).length = 0 then []
  else l.take n :: chunksOf n (l.drop n)
termination_by l.length
decreasing_by
  all_goals
    simp only [List.length_drop]
    simp only [List.length_take] at h
    omega

/-- Test for the two router-facing loop events. -/
def isPullWrite : Ev → Bool
  | .pull _ => true
  | .writeBatch _ => true
  | _ => false

/-- Test for any event the batch loop can emit. -/
def isLoopEv : Ev → Bool
  | .pull _ => true
  | .writeBatch _ => true
  | .progress _ _ _ => true
  | _ => false

/-- Test for a verbose progress line. -/
def isProgress : Ev → Bool
  | .progress _ _ _ => true
  | _ => false

/-- Test for a final per-status summary line. -/
def isStatusLine : Ev → Bool
  | .statusLine _ _ _ => true
  | _ => false

/-! Helper lemmas about the batch loop. -/

/-- A fault-free loop never ends with an early outcome. -/
theorem runLoop_out_ok (S : List Barcode) (n : Nat) (v : Bool)
    (pairs : List Barcode) (c : Nat) (db : DBState) :
    (runLoop S n v .ok pairs c db).2.2.2 = none := by
  rw [runLoop.eq_def]
  by_cases h : (pairs.take n).length = 0
  · simp [h]
  · simp only [h, reduceCtorEq, if_false, dif_neg, not_false_iff]
    simp only [tick]
    exact runLoop_out_ok S n v (pairs.drop n) _ _
termination_by pairs.length
decreasing_by
  simp only [List.length_drop]
  simp only [List.length_take] at h
  omega

/-- A fault-free loop consumes every pair. -/
theorem runLoop_consumed_ok (S : List Barcode) (n : Nat) (v : Bool) (hn : 0 < n)
    (pairs : List Barcode) (c : Nat) (db : DBState) :
    (runLoop S n v .ok pairs c db).2.1 = c + pairs.length := by
  rw [runLoop.eq_def]
  by_cases h : (pairs.take n).length = 0
  · have h' : pairs.length = 0 := by
      have h2 := h
      simp only [List.length_take] at h2
      omega
    simp [h, h']
  · simp only [h, reduceCtorEq, if_false, dif_neg, not_false_iff]
    simp only [tick]
    rw [runLoop_consumed_ok S n v hn (pairs.drop n)]
    simp only [List.length_take, List.length_drop]
    omega
termination_by pairs.length
decreasing_by
  simp only [List.length_drop]
  simp only [List.length_take] at h
  omega

/-- A fault-free loop folds the classifier over every pair in order. -/
theorem runLoop_db_ok (S : List Barcode) (n : Nat) (v : Bool) (hn : 0 < n)
    (pairs : List Barcode) (c : Nat) (db : DBState) :
    (runLoop S n v .ok pairs c db).2.2.1 = processBatch S db pairs := by
  rw [runLoop.eq_def]
  by_cases h : (pairs.take n).length = 0
  · have hp : pairs = [] := by
      have h2 := h
      simp only [List.length_take] at h2
      have h3 : pairs.length = 0 := by omega
      exact List.length_eq_zero.mp h3
    subst hp
    simp [h, processBatch]
  · simp only [h, reduceCtorEq, if_false, dif_neg, not_false_iff]
    simp only [tick]
    rw [runLoop_db_ok S n v hn (pairs.drop n)]
    simp only [processBatch]
    rw [← List.foldl_append, List.take_append_drop]
termination_by pairs.length
decreasing_by
  simp only [List.length_drop]
  simp only [List.length_take] at h
  omega

/-- Every event the loop emits, under any fault, is a pull, a write, or a
progress line. -/
theorem runLoop_evs_loop (S : List Barcode) (n : Nat) (v : Bool) (f : Fault)
    (pairs : List Barcode) (c : Nat) (db : DBState) :
    ((runLoop S n v f pairs c db).1).all isLoopEv = true := by
  rw [runLoop.eq_def]
  by_cases h1 : f = .interruptAfter 0
  · simp [h1]
  · by_cases h2 : f = .errorAfter 0
    · simp [h1, h2]
    · by_cases h : (pairs.take n).length = 0
      · simp [h1, h2, h, isLoopEv]
      · simp only [h1, h2, h, reduceCtorEq, if_false, if_neg, dif_neg, not_false_iff]
        have := runLoop_evs_loop S n v (tick f) (pairs.drop n)
          (c + (pairs.take n).length) (processBatch S db (pairs.take n))
        cases v <;> simp_all [isLoopEv]
termination_by pairs.length
decreasing_by
  all_goals
    simp only [List.length_drop]
    simp only [List.length_take] at h
    omega

/-- When verbose is off, the loop emits only pulls and writes. -/
theorem runLoop_evs_quiet (S : List Barcode) (n : Nat) (f : Fault)
    (pairs : List Barcode) (c : Nat) (db : DBState) :
    ((runLoop S n false f pairs c db).1).all isPullWrite = true := by
  rw [runLoop.eq_def]
  by_cases h1 : f = .interruptAfter 0
  · simp [h1]
  · by_cases h2 : f = .errorAfter 0
    · simp [h1, h2]
    · by_cases h : (pairs.take n).length = 0
      · simp [h1, h2, h, isPullWrite]
      · simp only [h1, h2, h, reduceCtorEq, if_false, if_neg, dif_neg, not_false_iff]
        have := runLoop_evs_quiet S n (tick f) (pairs.drop n)
          (c + (pairs.take n).length) (processBatch S db (pairs.take n))
        simp_all [isPullWrite]
termination_by pairs.length
decreasing_by
  all_goals
    simp only [List.length_drop]
    simp only [List.length_take] at h
    omega

/-- The pulls and writes of a fault-free loop follow the chunk structure of
the input: one pull and one write per non-empty chunk, then one final pull
that returns the empty batch. -/
theorem runLoop_filter_ok (S : List Barcode) (n : Nat) (v : Bool)
    (pairs : List Barcode) (c : Nat) (db : DBState) :
    ((runLoop S n v .ok pairs c db).1).filter isPullWrite =
      (chunksOf n pairs).flatMap
        (fun ch => [Ev.pull n, Ev.writeBatch ch.length]) ++ [Ev.pull n] := by
  rw [runLoop.eq_def, chunksOf.eq_def]
  by_cases h : (pairs.take n).length = 0
  · simp [h, isPullWrite]
  · simp only [h, reduceCtorEq, if_false, dif_neg, not_false_iff]
    simp only [tick]
    have := runLoop_filter_ok S n v (pairs.drop n)
      (c + (pairs.take n).length) (processBatch S db (pairs.take n))
    cases v <;> simp_all [isPullWrite]
termination_by pairs.length
decreasing_by
  all_goals
    simp only [List.length_drop]
    simp only [List.length_take] at h
    omega

/-- Every chunk produced by `chunksOf` is non-empty. -/
theorem chunksOf_all_ne_nil (n : Nat) (l : List Barcode) :
    (chunksOf n l).all (fun ch => !ch.isEmpty) = true := by
  rw [chunksOf.eq_def]
  by_cases h : (l.take n).length = 0
  · simp [h]
  · simp only [h, dif_neg, not_false_iff]
    have := chunksOf_all_ne_nil n (l.drop n)
    simp_all [List.isEmpty_iff_length_eq_zero]
termination_by l.length
decreasing_by
  simp only [List.length_drop]
  simp only [List.length_take] at h
  omega

/-- An interrupt delivered at a batch boundary the loop actually reaches
ends the loop with the interrupt outcome, having consumed exactly the
pairs of the `k` whole batches pulled before it. -/
theorem runLoop_interrupt (S : List Barcode) (v : Bool) (k : Nat) :
    ∀ (pairs : List Barcode) (c : Nat) (db : DBState),
      k ≤ (pairs.length + 249999) / 250000 →
      (runLoop S 250000 v (.interruptAfter k) pairs c db).2.2.2 = some .interruptExit ∧
      (runLoop S 250000 v (.interruptAfter k) pairs c db).2.1 =
        c + min (k * 250000) pairs.length := by
  induction k with
  | zero =>
    intro pairs c db hk
    rw [runLoop.eq_def]
    simp
  | succ k ih =>
    intro pairs c db hk
    rw [runLoop.eq_def]
    have hlen : 1 ≤ pairs.length := by omega
    have h : ¬(pairs.take 250000).length = 0 := by
      simp only [List.length_take]
      omega
    have hk' : k ≤ ((pairs.drop 250000).length + 249999) / 250000 := by
      simp only [List.length_drop]
      omega
    obtain ⟨ih1, ih2⟩ := ih (pairs.drop 250000)
      (c + (pairs.take 250000).length) (processBatch S db (pairs.take 250000)) hk'
    simp only [h, reduceCtorEq, Fault.interruptAfter.injEq, Nat.succ_ne_zero,
      if_false, dif_neg, not_false_iff]
    simp only [tick]
    refine ⟨ih1, ?_⟩
    rw [ih2]
    simp only [List.length_take, List.length_drop]
    omega

/-- A generic exception delivered at a batch boundary the loop actually
reaches ends the loop with the fatal outcome. -/
theorem runLoop_error (S : List Barcode) (v : Bool) (k : Nat) :
    ∀ (pairs : List Barcode) (c : Nat) (db : DBState),
      k ≤ (pairs.length + 249999) / 250000 →
      (runLoop S 250000 v (.errorAfter k) pairs c db).2.2.2 = some .fatalExit := by
  induction k with
  | zero =>
    intro pairs c db hk
    rw [runLoop.eq_def]
    simp
  | succ k ih =>
    intro pairs c db hk
    rw [runLoop.eq_def]
    have hlen : 1 ≤ pairs.length := by omega
    have h : ¬(pairs.take 250000).length = 0 := by
      simp only [List.length_take]
      omega
    have hk' : k ≤ ((pairs.drop 250000).length + 249999) / 250000 := by
      simp only [List.length_drop]
      omega
    have ih1 := ih (pairs.drop 250000)
      (c + (pairs.take 250000).length) (processBatch S db (pairs.take 250000)) hk'
    simp only [h, reduceCtorEq, Fault.errorAfter.injEq, Nat.succ_ne_zero,
      if_false, dif_neg, not_false_iff]
    simp only [tick]
    exact ih1

/-- FINALIZE emits no pulls and no writes. -/
theorem finalizeRun_filter (v : Bool) (c : Nat) (db : DBState) :
    ((finalizeRun v c db).1).filter isPullWrite = [] := by
  cases v <;> by_cases h : c = 0 <;> simp [finalizeRun, h, isPullWrite]

/-- FINALIZE always persists the frequency table. -/
theorem finalizeRun_persist (v : Bool) (c : Nat) (db : DBState) :
    Ev.persistCounts ∈ (finalizeRun v c db).1 := by
  cases v <;> by_cases h : c = 0 <;> simp [finalizeRun, h]

/-- A fault-free run: INIT events, then the loop events, then FINALIZE on
the fully folded counters, with the loop having consumed every pair. -/
theorem process_10xReads_EXE_ok (cfg : Config) (S pairs : List Barcode) :
    process_10xReads_EXE cfg S pairs .ok =
      ⟨[.openRouter (output_list cfg.output_all), .openSource, .buildWhitelist] ++
          (runLoop S 250000 cfg.verbose .ok pairs 0 initDB).1 ++
          (finalizeRun cfg.verbose pairs.length (processBatch S initDB pairs)).1,
        pairs.length,
        processBatch S initDB pairs,
        (finalizeRun cfg.verbose pairs.length (processBatch S initDB pairs)).2⟩ := by
  unfold process_10xReads_EXE
  simp only [reduceCtorEq, if_false]
  split
  · next o ho =>
    rw [runLoop_out_ok] at ho
    simp at ho
  · next =>
    rw [runLoop_consumed_ok S 250000 cfg.verbose (by norm_num),
      runLoop_db_ok S 250000 cfg.verbose (by norm_num)]
    simp

/-- A run whose loop ends early with outcome `o`: INIT events then the loop
events, no FINALIZE. -/
theorem process_10xReads_EXE_fault (cfg : Config) (S pairs : List Barcode)
    (f : Fault) (o : Outcome)
    (hf1 : f ≠ .routerInitFail) (hf2 : f ≠ .sourceInitFail) (hf3 : f ≠ .whitelistInitFail)
    (h : (runLoop S 250000 cfg.verbose f pairs 0 initDB).2.2.2 = some o) :
    process_10xReads_EXE cfg S pairs f =
      ⟨[.openRouter (output_list cfg.output_all), .openSource, .buildWhitelist] ++
          (runLoop S 250000 cfg.verbose f pairs 0 initDB).1,
        (runLoop S 250000 cfg.verbose f pairs 0 initDB).2.1,
        (runLoop S 250000 cfg.verbose f pairs 0 initDB).2.2.1,
        o⟩ := by
  unfold process_10xReads_EXE
  simp only [hf1, hf2, hf3, if_false, if_neg, not_false_iff]
  split
  · next o' ho' =>
    rw [h] at ho'
    simp only [Option.some.injEq] at ho'
    subst ho'
    rfl
  · next hn =>
    rw [h] at hn
    simp at hn

/-- A loop over an exhausted source pulls once and stops. -/
theorem runLoop_nil (S : List Barcode) (n : Nat) (v : Bool) (c : Nat) (db : DBState) :
    runLoop S n v .ok [] c db = ([Ev.pull n], c, db, none) := by
  rw [runLoop.eq_def]
  simp

/-- The first three events of a fault-free run are the three INIT
constructions, in source order. -/
theorem exe_take3 (cfg : Config) (S pairs : List Barcode) :
    ((process_10xReads_EXE cfg S pairs .ok).evs).take 3 =
      [Ev.openRouter (output_list cfg.output_all), Ev.openSource, Ev.buildWhitelist] := by
  rw [process_10xReads_EXE_ok]
  dsimp only
  rw [List.append_assoc]
  exact List.take_left
    [Ev.openRouter (output_list cfg.output_all), Ev.openSource, Ev.buildWhitelist] _

/-- Claim C5: the driver repeatedly requests batches of exactly 250000
pairs, writes each non-empty batch through the output router, stops
pulling exactly when a batch of zero pairs is returned (the empty batch is
never written, nothing is pulled after it), and then enters FINALIZE. -/
theorem loop_pulls_batches_until_empty (cfg : Config) (S pairs : List Barcode) :
    ((process_10xReads_EXE cfg S pairs .ok).evs).filter isPullWrite =
      (chunksOf 250000 pairs).flatMap
        (fun ch => [Ev.pull 250000, Ev.writeBatch ch.length]) ++ [Ev.pull 250000] ∧
    (chunksOf 250000 pairs).all (fun ch => !ch.isEmpty) = true ∧
    Ev.persistCounts ∈ (process_10xReads_EXE cfg S pairs .ok).evs := by
  rw [process_10xReads_EXE_ok]
  refine ⟨?_, chunksOf_all_ne_nil 250000 pairs, ?_⟩
  · simp only [List.filter_append, runLoop_filter_ok, finalizeRun_filter]
    simp [isPullWrite]
  · simp only [List.mem_append]
    exact Or.inr (finalizeRun_persist _ _ _)

/-- Claim C6: the output router is constructed with enabled statuses
exactly MATCH, MISMATCH1 when output-all is off, and exactly MATCH,
MISMATCH1, AMBIGUOUS, UNKNOWN when it is on, for every combination of the
other options. -/
theorem router_enabled_status_list (cfg : Config) (S pairs : List Barcode) :
    ((process_10xReads_EXE cfg S pairs .ok).evs).head? =
      some (Ev.openRouter
        (if cfg.output_all then
          [Status.MATCH, Status.MISMATCH1, Status.AMBIGUOUS, Status.UNKNOWN]
         else [Status.MATCH, Status.MISMATCH1])) := by
  rw [process_10xReads_EXE_ok]
  simp [output_list]

/-- Claim C7 counterexample: the driver's INIT trace opens the output
router first and builds the whitelist index last, not the other way
around as the claim states. -/
theorem init_order_counterexample :
    ((process_10xReads_EXE ⟨"out", false, false, false, true⟩ [] [] .ok).evs).take 3 =
      [Ev.openRouter [Status.MATCH, Status.MISMATCH1], Ev.openSource, Ev.buildWhitelist] ∧
    ((process_10xReads_EXE ⟨"out", false, false, false, true⟩ [] [] .ok).evs).take 3 ≠
      [Ev.buildWhitelist, Ev.openSource,
        Ev.openRouter [Status.MATCH, Status.MISMATCH1]] := by
  have h := exe_take3 ⟨"out", false, false, false, true⟩ [] []
  simp only [output_list, Bool.false_eq_true, if_false] at h
  refine ⟨h, ?_⟩
  rw [h]
  decide

/-- Claim C7 (amended): INIT constructs the output router, then opens the
read-pair source, then builds the whitelist index, and a fatal error in
any of the three aborts the run before any read pair is processed. -/
theorem init_order_router_source_whitelist (cfg : Config) (S pairs : List Barcode) :
    ((process_10xReads_EXE cfg S pairs .ok).evs).take 3 =
      [Ev.openRouter (output_list cfg.output_all), Ev.openSource, Ev.buildWhitelist] ∧
    ((process_10xReads_EXE cfg S pairs .routerInitFail).outcome = .initError ∧
      (process_10xReads_EXE cfg S pairs .routerInitFail).consumed = 0 ∧
      ((process_10xReads_EXE cfg S pairs .routerInitFail).evs).all
        (fun e => !isPullWrite e) = true) ∧
    ((process_10xReads_EXE cfg S pairs .sourceInitFail).outcome = .initError ∧
      (process_10xReads_EXE cfg S pairs .sourceInitFail).consumed = 0 ∧
      ((process_10xReads_EXE cfg S pairs .sourceInitFail).evs).all
        (fun e => !isPullWrite e) = true) ∧
    ((process_10xReads_EXE cfg S pairs .whitelistInitFail).outcome = .initError ∧
      (process_10xReads_EXE cfg S pairs .whitelistInitFail).consumed = 0 ∧
      ((process_10xReads_EXE cfg S pairs .whitelistInitFail).evs).all
        (fun e => !isPullWrite e) = true) := by
  refine ⟨exe_take3 cfg S pairs, ?_, ?_, ?_⟩ <;>
    simp [process_10xReads_EXE, isPullWrite]

/-- Claim C9: with verbose enabled and a source yielding zero pairs, the
final summary divides by the total pair count without a zero guard, so the
run ends through the generic fatal-error handler with nonzero exit status
instead of completing; no per-status summary line is emitted. -/
theorem zero_pairs_verbose_run_fatal (odir : String) (il ng oa : Bool) (S : List Barcode) :
    (process_10xReads_EXE ⟨odir, il, ng, oa, true⟩ S [] .ok).outcome = .fatalExit ∧
    (process_10xReads_EXE ⟨odir, il, ng, oa, true⟩ S [] .ok).consumed = 0 ∧
    ((process_10xReads_EXE ⟨odir, il, ng, oa, true⟩ S [] .ok).evs).all
      (fun e => !isStatusLine e) = true ∧
    process_10xReads_ARGS ⟨true, true, true⟩ ⟨odir, il, ng, oa, true⟩ S [] .ok = 1 := by
  refine ⟨?_, ?_, ?_, ?_⟩ <;>
    simp [process_10xReads_ARGS, process_10xReads_EXE_ok, runLoop_nil, finalizeRun,
      processBatch, isStatusLine]

/-- A pull or write event is neither a progress line nor a status line. -/
theorem pullWrite_not_report (e : Ev) (h : isPullWrite e = true) :
    (!isProgress e && !isStatusLine e) = true := by
  cases e <;> simp_all [isPullWrite, isProgress, isStatusLine]

/-- Claim C2: after the batch loop exits on an empty batch, FINALIZE
persists the frequency table, closes the router, and emits the progress
line plus, for each of the four statuses, its count and the percentage
count / total × 100, where total is the cumulative number of pairs
consumed.  Stated for a verbose run over a non-empty input; the quiet and
zero-pair boundary cases are the subjects of C10 and C9. -/
theorem finalize_emits_persist_close_summary (odir : String) (il ng oa : Bool)
    (S : List Barcode) (p : Barcode) (ps : List Barcode) :
    (process_10xReads_EXE ⟨odir, il, ng, oa, true⟩ S (p :: ps) .ok).outcome = .completed ∧
    (process_10xReads_EXE ⟨odir, il, ng, oa, true⟩ S (p :: ps) .ok).consumed =
      (p :: ps).length ∧
    ∃ pre,
      (process_10xReads_EXE ⟨odir, il, ng, oa, true⟩ S (p :: ps) .ok).evs =
        pre ++
          [Ev.persistCounts, Ev.closeRouter,
            Ev.progress (p :: ps).length
              (processBatch S initDB (p :: ps)).gbcCounter.length
              (median ((processBatch S initDB (p :: ps)).gbcCounter.map Prod.snd)),
            Ev.statusLine .MATCH ((processBatch S initDB (p :: ps)).statusCounter .MATCH)
              (((processBatch S initDB (p :: ps)).statusCounter .MATCH : Rat) /
                ((p :: ps).length : Rat) * 100),
            Ev.statusLine .MISMATCH1
              ((processBatch S initDB (p :: ps)).statusCounter .MISMATCH1)
              (((processBatch S initDB (p :: ps)).statusCounter .MISMATCH1 : Rat) /
                ((p :: ps).length : Rat) * 100),
            Ev.statusLine .AMBIGUOUS
              ((processBatch S initDB (p :: ps)).statusCounter .AMBIGUOUS)
              (((processBatch S initDB (p :: ps)).statusCounter .AMBIGUOUS : Rat) /
                ((p :: ps).length : Rat) * 100),
            Ev.statusLine .UNKNOWN
              ((processBatch S initDB (p :: ps)).statusCounter .UNKNOWN)
              (((processBatch S initDB (p :: ps)).statusCounter .UNKNOWN : Rat) /
                ((p :: ps).length : Rat) * 100)] := by
  rw [process_10xReads_EXE_ok]
  dsimp only
  refine ⟨by simp [finalizeRun], rfl,
    ⟨[Ev.openRouter (output_list oa), Ev.openSource, Ev.buildWhitelist] ++
      (runLoop S 250000 true .ok (p :: ps) 0 initDB).1, ?_⟩⟩
  rw [List.append_assoc]
  simp [finalizeRun]

/-- Claim C10: with verbose off, no progress line and no per-status summary
line is emitted, while the frequency table is still persisted and the
router still closed, in that order, with the same final table and count as
the corresponding verbose run. -/
theorem quiet_run_no_progress_still_persists (odir : String) (il ng oa : Bool)
    (S pairs : List Barcode) :
    ((process_10xReads_EXE ⟨odir, il, ng, oa, false⟩ S pairs .ok).evs).all
      (fun e => !isProgress e && !isStatusLine e) = true ∧
    (∃ pre, (process_10xReads_EXE ⟨odir, il, ng, oa, false⟩ S pairs .ok).evs =
      pre ++ [Ev.persistCounts, Ev.closeRouter]) ∧
    (process_10xReads_EXE ⟨odir, il, ng, oa, false⟩ S pairs .ok).db.gbcCounter =
      (process_10xReads_EXE ⟨odir, il, ng, oa, true⟩ S pairs .ok).db.gbcCounter ∧
    (process_10xReads_EXE ⟨odir, il, ng, oa, false⟩ S pairs .ok).consumed =
      (process_10xReads_EXE ⟨odir, il, ng, oa, true⟩ S pairs .ok).consumed ∧
    (process_10xReads_EXE ⟨odir, il, ng, oa, false⟩ S pairs .ok).outcome = .completed := by
  rw [process_10xReads_EXE_ok, process_10xReads_EXE_ok]
  dsimp only
  refine ⟨?_, ?_, rfl, rfl, by simp [finalizeRun]⟩
  · simp only [List.all_append, Bool.and_eq_true]
    refine ⟨⟨?_, ?_⟩, ?_⟩
    · simp [isProgress, isStatusLine]
    · exact List.all_eq_true.mpr fun e he =>
        pullWrite_not_report e
          (List.all_eq_true.mp (runLoop_evs_quiet S 250000 .ok pairs 0 initDB) e he)
    · simp [finalizeRun, isProgress, isStatusLine]
  · refine ⟨[Ev.openRouter (output_list oa), Ev.openSource, Ev.buildWhitelist] ++
      (runLoop S 250000 false .ok pairs 0 initDB).1, ?_⟩
    rw [List.append_assoc]
    simp [finalizeRun]

/-- Claim C1: `lookup` classifies a barcode `b` against the whitelist `S`
as (MATCH, b) when b is a whitelist member, as (MISMATCH1, o) when b is
not in S and its MismatchIndex origin set is exactly the one canonical
entry o, as (AMBIGUOUS, none) when the origin set has more than one entry,
and as (UNKNOWN, none) otherwise. -/
theorem lookup_classification_spec (S : List Barcode) (b : Barcode) :
    (b ∈ S → lookup S b = (.MATCH, some b)) ∧
    (b ∉ S → ∀ o, origins (buildMismatchIndex S) b = [o] →
      lookup S b = (.MISMATCH1, some o)) ∧
    (b ∉ S → 2 ≤ (origins (buildMismatchIndex S) b).length →
      lookup S b = (.AMBIGUOUS, none)) ∧
    (b ∉ S → origins (buildMismatchIndex S) b = [] →
      lookup S b = (.UNKNOWN, none)) := by
  refine ⟨fun hb => ?_, fun hb o ho => ?_, fun hb hlen => ?_, fun hb ho => ?_⟩
  · simp [lookup, hb]
  · simp [lookup, hb, ho]
  · rcases horig : origins (buildMismatchIndex S) b with _ | ⟨x, _ | ⟨y, t⟩⟩
    · rw [horig] at hlen
      simp at hlen
    · rw [horig] at hlen
      simp at hlen
    · simp [lookup, hb, horig]
  · simp [lookup, hb, ho]

/-- Witness for C1 on the scenario whitelist of spec §8: an exact member
classifies as MATCH and a unique one-substitution neighbor as MISMATCH1
with the corrected barcode. -/
theorem lookup_classification_spec_witness :
    (['A','A','A','A'] ∈ [['A','A','A','A'], ['C','C','C','C']] ∧
      lookup [['A','A','A','A'], ['C','C','C','C']] ['A','A','A','A'] =
        (.MATCH, some ['A','A','A','A'])) ∧
    ((['A','A','A','T'] : Barcode) ∉ [['A','A','A','A'], ['C','C','C','C']] ∧
      lookup [['A','A','A','A'], ['C','C','C','C']] ['A','A','A','T'] =
        (.MISMATCH1, some ['A','A','A','A'])) :=
  ⟨⟨by decide, (lookup_classification_spec _ _).1 (by decide)⟩,
   ⟨by decide, (lookup_classification_spec _ _).2.1 (by decide) _ (by decide)⟩⟩

/-- With all validation passing, the process exit status is decided by the
run's outcome alone. -/
theorem ARGS_validated (cfg : Config) (S pairs : List Barcode) (fault : Fault) :
    process_10xReads_ARGS ⟨true, true, true⟩ cfg S pairs fault =
      match (process_10xReads_EXE cfg S pairs fault).outcome with
      | .completed => 0
      | _ => 1 := by
  unfold process_10xReads_ARGS
  simp

/-- Claim C3: an interrupt raised while the pipeline is running terminates
the process at once with the dedicated interrupt outcome and exit status 1,
bypassing FINALIZE — the frequency table is not persisted and the router is
not closed — and it is observed at a batch boundary, so the pairs consumed
are exactly those of the whole batches already pulled. -/
theorem interrupt_terminates_without_finalize (cfg : Config) (S pairs : List Barcode)
    (k : Nat) (hk : k ≤ (pairs.length + 249999) / 250000) :
    (process_10xReads_EXE cfg S pairs (.interruptAfter k)).outcome = .interruptExit ∧
    Ev.persistCounts ∉ (process_10xReads_EXE cfg S pairs (.interruptAfter k)).evs ∧
    Ev.closeRouter ∉ (process_10xReads_EXE cfg S pairs (.interruptAfter k)).evs ∧
    (process_10xReads_EXE cfg S pairs (.interruptAfter k)).consumed =
      min (k * 250000) pairs.length ∧
    process_10xReads_ARGS ⟨true, true, true⟩ cfg S pairs (.interruptAfter k) = 1 := by
  obtain ⟨h1, h2⟩ := runLoop_interrupt S cfg.verbose k pairs 0 initDB hk
  have hall := runLoop_evs_loop S 250000 cfg.verbose (.interruptAfter k) pairs 0 initDB
  have hexe := process_10xReads_EXE_fault cfg S pairs (.interruptAfter k) .interruptExit
    (by simp) (by simp) (by simp) h1
  rw [ARGS_validated, hexe]
  dsimp only
  refine ⟨rfl, ?_, ?_, by simpa using h2, rfl⟩ <;>
  · simp only [List.mem_append, List.mem_cons, List.not_mem_nil, or_false, not_or]
    refine ⟨⟨by simp, by simp, by simp⟩, fun hmem => ?_⟩
    have := List.all_eq_true.mp hall _ hmem
    simp [isLoopEv] at this

/-- Witness for C3: an interrupt delivered at the very first batch
boundary of a run over one pair. -/
theorem interrupt_terminates_without_finalize_witness :
    (1 ≤ ((([['A','A','A','A']] : List Barcode)).length + 249999) / 250000) ∧
    ((process_10xReads_EXE ⟨"out", false, false, false, true⟩ [] [['A','A','A','A']]
        (.interruptAfter 1)).outcome = .interruptExit ∧
      Ev.persistCounts ∉ (process_10xReads_EXE ⟨"out", false, false, false, true⟩ []
        [['A','A','A','A']] (.interruptAfter 1)).evs ∧
      Ev.closeRouter ∉ (process_10xReads_EXE ⟨"out", false, false, false, true⟩ []
        [['A','A','A','A']] (.interruptAfter 1)).evs ∧
      (process_10xReads_EXE ⟨"out", false, false, false, true⟩ [] [['A','A','A','A']]
        (.interruptAfter 1)).consumed =
        min (1 * 250000) ([['A','A','A','A']] : List Barcode).length ∧
      process_10xReads_ARGS ⟨true, true, true⟩ ⟨"out", false, false, false, true⟩ []
        [['A','A','A','A']] (.interruptAfter 1) = 1) :=
  ⟨by decide,
   interrupt_terminates_without_finalize ⟨"out", false, false, false, true⟩ []
     [['A','A','A','A']] 1 (by decide)⟩

/-- Claim C4: an uncaught exception other than an interrupt raised during
the running loop makes the process report through the generic fatal
handler and exit with status 1, without persisting the frequency table and
without closing the output router. -/
theorem fatal_error_terminates_without_finalize (cfg : Config) (S pairs : List Barcode)
    (k : Nat) (hk : k ≤ (pairs.length + 249999) / 250000) :
    (process_10xReads_EXE cfg S pairs (.errorAfter k)).outcome = .fatalExit ∧
    Ev.persistCounts ∉ (process_10xReads_EXE cfg S pairs (.errorAfter k)).evs ∧
    Ev.closeRouter ∉ (process_10xReads_EXE cfg S pairs (.errorAfter k)).evs ∧
    process_10xReads_ARGS ⟨true, true, true⟩ cfg S pairs (.errorAfter k) = 1 := by
  have h1 := runLoop_error S cfg.verbose k pairs 0 initDB hk
  have hall := runLoop_evs_loop S 250000 cfg.verbose (.errorAfter k) pairs 0 initDB
  have hexe := process_10xReads_EXE_fault cfg S pairs (.errorAfter k) .fatalExit
    (by simp) (by simp) (by simp) h1
  rw [ARGS_validated, hexe]
  dsimp only
  refine ⟨rfl, ?_, ?_, rfl⟩ <;>
  · simp only [List.mem_append, List.mem_cons, List.not_mem_nil, or_false, not_or]
    refine ⟨⟨by simp, by simp, by simp⟩, fun hmem => ?_⟩
    have := List.all_eq_true.mp hall _ hmem
    simp [isLoopEv] at this

/-- Witness for C4: a generic exception raised at the first batch boundary
of a run over one pair. -/
theorem fatal_error_terminates_without_finalize_witness :
    (1 ≤ ((([['A','A','A','A']] : List Barcode)).length + 249999) / 250000) ∧
    ((process_10xReads_EXE ⟨"out", false, false, false, true⟩ [] [['A','A','A','A']]
        (.errorAfter 1)).outcome = .fatalExit ∧
      Ev.persistCounts ∉ (process_10xReads_EXE ⟨"out", false, false, false, true⟩ []
        [['A','A','A','A']] (.errorAfter 1)).evs ∧
      Ev.closeRouter ∉ (process_10xReads_EXE ⟨"out", false, false, false, true⟩ []
        [['A','A','A','A']] (.errorAfter 1)).evs ∧
      process_10xReads_ARGS ⟨true, true, true⟩ ⟨"out", false, false, false, true⟩ []
        [['A','A','A','A']] (.errorAfter 1) = 1) :=
  ⟨by decide,
   fatal_error_terminates_without_finalize ⟨"out", false, false, false, true⟩ []
     [['A','A','A','A']] 1 (by decide)⟩

/-- Claim C8: the process exits with status 0 exactly when argument
validation passes and the run completes without error or interrupt; every
failing path exits with status 1 (the only nonzero status the program
uses). -/
theorem exit_code_zero_iff_completed (a : ArgsState) (cfg : Config)
    (S pairs : List Barcode) (fault : Fault) :
    (process_10xReads_ARGS a cfg S pairs fault = 0 ↔
      a.read1_given = true ∧ a.read2_given = true ∧ a.whitelist_accessible = true ∧
      (process_10xReads_EXE cfg S pairs fault).outcome = .completed) ∧
    (process_10xReads_ARGS a cfg S pairs fault = 0 ∨
      process_10xReads_ARGS a cfg S pairs fault = 1) := by
  obtain ⟨r1, r2, wl⟩ := a
  cases r1 <;> cases r2 <;> cases wl <;>
    simp only [process_10xReads_ARGS, Bool.true_eq_false, Bool.false_eq_true,
      if_true, if_false, if_neg, not_false_iff] <;>
    simp <;>
    cases h : (process_10xReads_EXE cfg S pairs fault).outcome <;>
    simp [h]

end Proc10xG
